import Mathlib

/-!
Shallow embedding of the stock-ledger core of the Django inventory
application (files `inventory/models.py`, `inventory/forms.py`,
`inventory/views.py`, `inventory/admin.py`,
`inventory/management/commands/check_low_stock.py`).

Modelling conventions:
* Decimal money amounts are exact; they are represented as `Int`
  (a fixed scaling, e.g. cents — `DecimalField` arithmetic is exact, so the
  scale is irrelevant to the properties proved here).
* Database tables are Lean lists; a row's `pk` identifies it.  A `Model.save`
  with `pk = none` inserts a fresh row (Django INSERT); with `pk = some k` it
  overwrites the row with that pk (Django UPDATE).
* Python truthiness of an optional Decimal (`if self.unit_price`,
  `not self.total_value`) is `none` ↦ false, `some 0` ↦ false, otherwise true.
* Auto-managed timestamps are threaded as an explicit `now : Nat` argument.
* Error messages are abbreviated marker strings; the source interpolates
  details (counts, product names) into them, which no property here depends on.
* Category/Supplier rows, text fields and the e-mail side channel are opaque
  to every claim and are not modelled.
-/

namespace Inventory

/-- Exact decimal amount (`DecimalField`), at a fixed scale. -/
abbrev Money := Int

/-- Python truthiness of an optional Decimal: `None` and `0` are falsy. -/
def truthy : Option Money → Bool
  | none => false
  | some v => v != 0

/-- `inventory.models.Product` (the fields the ledger core reads/writes). -/
structure Product where
  pk : Nat
  code : String
  name : String
  unit_price : Money
  current_stock : Int
  minimum_stock : Int
  maximum_stock : Int
  is_active : Bool
deriving Repr, DecidableEq

/-- `Product.is_low_stock` (models.py line 82): `current_stock <= minimum_stock`. -/
def Product.is_low_stock (p : Product) : Bool :=
  p.current_stock ≤ p.minimum_stock

/-- `Product.update_stock` (models.py lines 95-104): IN adds, OUT subtracts only
when enough stock is on hand and otherwise raises `ValueError`; any other
movement type just re-saves the product unchanged. -/
def Product.update_stock (p : Product) (quantity : Int) (movement_type : String) :
    Except String Product :=
  if movement_type = "IN" then
    .ok { p with current_stock := p.current_stock + quantity }
  else if movement_type = "OUT" then
    if p.current_stock ≥ quantity then
      .ok { p with current_stock := p.current_stock - quantity }
    else
      .error "Stock insuficiente"
  else
    .ok p

/-- `inventory.models.StockMovement` row. -/
structure StockMovement where
  pk : Option Nat
  product : Nat
  movement_type : String
  quantity : Int
  unit_price : Option Money
  total_value : Option Money
  reference : String
  notes : String
  created_by : Nat
  previous_stock : Int
  new_stock : Int
deriving Repr, DecidableEq

/-- `inventory.models.LowStockAlert` row. -/
structure LowStockAlert where
  pk : Nat
  product : Nat
  current_stock : Int
  minimum_stock : Int
  is_resolved : Bool
  created_at : Nat
  resolved_at : Option Nat
deriving Repr, DecidableEq

/-- The database state the ledger core touches. -/
structure DB where
  products : List Product
  movements : List StockMovement
  alerts : List LowStockAlert
  next_product_pk : Nat
  next_movement_pk : Nat
  next_alert_pk : Nat
deriving Repr, DecidableEq

/-- `Product.objects.get(pk=...)`. -/
def findProduct (db : DB) (ppk : Nat) : Option Product :=
  db.products.find? (fun p => p.pk = ppk)

/-- `product.save()` on an existing row: overwrite the row with the same pk. -/
def saveProduct (ps : List Product) (p : Product) : List Product :=
  ps.map (fun q => if q.pk = p.pk then p else q)

/-- The `total_value` recomputation in `StockMovement.save` (models.py
lines 169-170): `if self.unit_price and not self.total_value:
self.total_value = self.unit_price * self.quantity`. -/
def computeTotal (up tv : Option Money) (q : Int) : Option Money :=
  match up with
  | some v => if v != 0 && !truthy tv then some (v * q) else tv
  | none => tv

/-- `StockMovement.save` (models.py lines 161-192).  Rejects an unknown
movement type (`ValueError`); recomputes `total_value`; when the row is new
(`self.pk is None`) it snapshots `previous_stock`, applies the movement to the
product (ADJ sets the absolute stock, IN/OUT go through `update_stock`, whose
`ValueError` is re-raised as `ValidationError` before anything is persisted),
snapshots `new_stock`, and inserts the row; on an existing row it just
overwrites the stored row with the in-memory fields.  The trailing
`StockMovement.objects.filter(pk=self.pk).update(new_stock=self.new_stock)`
rewrites `new_stock` with the value the row already holds, a no-op here.
The caller always supplies an existing product (the `product` FK object). -/
def StockMovement.save (db : DB) (m : StockMovement) :
    Except String (DB × StockMovement) :=
  if m.movement_type = "IN" ∨ m.movement_type = "OUT" ∨ m.movement_type = "ADJ" then
    let m1 : StockMovement :=
      { m with total_value := computeTotal m.unit_price m.total_value m.quantity }
    match m.pk with
    | none =>
      match findProduct db m.product with
      | none => .error "Producto inexistente"
      | some p =>
        let stepped : Except String Product :=
          if m.movement_type = "ADJ" then
            .ok { p with current_stock := m.quantity }
          else
            p.update_stock m.quantity m.movement_type
        match stepped with
        | .error e => .error e
        | .ok p1 =>
          let m2 : StockMovement :=
            { m1 with
              previous_stock := p.current_stock
              new_stock := p1.current_stock
              pk := some db.next_movement_pk }
          .ok ({ db with
                  products := saveProduct db.products p1
                  movements := db.movements ++ [m2]
                  next_movement_pk := db.next_movement_pk + 1 }, m2)
    | some _ =>
      .ok ({ db with
              movements := db.movements.map (fun r => if r.pk = m.pk then m1 else r) },
           m1)
  else
    .error "Tipo de movimiento no válido"

/-- The movement request carried by `StockMovementForm` (its editable fields). -/
structure MovementRequest where
  product : Nat
  movement_type : String
  quantity : Int
  unit_price : Option Money
  reference : String
  notes : String
deriving Repr, DecidableEq

/-- `StockMovementForm` validation (forms.py lines 57-90 plus the model-field
validators run by the ModelForm): the product must be an existing row — the
`ModelChoiceField` queryset is `Product.objects.all()`, so the active flag is
NOT consulted; the movement type must be one of the three choices; `quantity`
carries `MinValueValidator(1)`; `unit_price`, when given, must be ≥ 0; and
`clean()` re-fetches the product and rejects an OUT whose quantity exceeds the
current stock. -/
def StockMovementForm.is_valid (db : DB) (r : MovementRequest) :
    Except String Product :=
  match findProduct db r.product with
  | none => .error "Producto no válido"
  | some p =>
    if ¬ (r.movement_type = "IN" ∨ r.movement_type = "OUT" ∨ r.movement_type = "ADJ") then
      .error "Tipo de movimiento no válido"
    else if r.quantity < 1 then
      .error "Cantidad inválida"
    else if (match r.unit_price with | some v => decide (v < 0) | none => false) then
      .error "Precio inválido"
    else if r.movement_type = "OUT" ∧ p.current_stock < r.quantity then
      .error "Stock insuficiente"
    else
      .ok p

/-- The `get_or_create(product=product, is_resolved=False, defaults=...)` call
shared by `stock_movement_create` and the `check_low_stock` command: when an
unresolved alert for the product already exists it is returned untouched
(the defaults are NOT applied); otherwise a fresh unresolved alert is created
with a snapshot of the product's current stock and minimum.  Returns the
updated state and whether a row was created. -/
def alertGetOrCreate (db : DB) (p : Product) (now : Nat) : DB × Bool :=
  if db.alerts.any (fun a => a.product = p.pk && !a.is_resolved) then
    (db, false)
  else
    ({ db with
        alerts := db.alerts ++
          [{ pk := db.next_alert_pk
             product := p.pk
             current_stock := p.current_stock
             minimum_stock := p.minimum_stock
             is_resolved := false
             created_at := now
             resolved_at := none }]
        next_alert_pk := db.next_alert_pk + 1 }, true)

/-- Alert evaluation as performed after a committed movement
(views.py lines 189-199): `if product.is_low_stock:` guard, then the
`get_or_create` dedup. -/
def evaluateAlertFor (db : DB) (ppk : Nat) (now : Nat) : DB :=
  match findProduct db ppk with
  | none => db
  | some p => if p.is_low_stock then (alertGetOrCreate db p now).1 else db

/-- The unsaved `StockMovement` instance built by `form.save(commit=False)`
followed by `movement.created_by = request.user` (views.py lines 185-186):
the form's fields are copied in, `total_value` and the snapshots start at
their model defaults, and the pk is unset. -/
def formMovement (r : MovementRequest) (user : Nat) : StockMovement :=
  { pk := none
    product := r.product
    movement_type := r.movement_type
    quantity := r.quantity
    unit_price := r.unit_price
    total_value := none
    reference := r.reference
    notes := r.notes
    created_by := user
    previous_stock := 0
    new_stock := 0 }

/-- `stock_movement_create` (views.py lines 178-214): validate the form, then
inside `transaction.atomic()` save the movement (any `ValidationError` aborts
with no state change) and run alert evaluation on the moved product.  Returns
the new state and `none`, or the unchanged state and the error message. -/
def stock_movement_create (db : DB) (r : MovementRequest) (user : Nat) (now : Nat) :
    DB × Option String :=
  match StockMovementForm.is_valid db r with
  | .error e => (db, some e)
  | .ok _ =>
    match StockMovement.save db (formMovement r user) with
    | .error e => (db, some e)
    | .ok (db1, mv1) => (evaluateAlertFor db1 mv1.product now, none)

/-- `Command.handle` of `check_low_stock` (lines 11-29): run the
`get_or_create` dedup over every active product at or below its minimum,
counting the newly created alerts. -/
def checkLowStock (db : DB) (now : Nat) : DB × Nat :=
  (db.products.filter (fun p => p.is_active && p.current_stock ≤ p.minimum_stock)).foldl
    (fun acc p =>
      let res := alertGetOrCreate acc.1 p now
      (res.1, acc.2 + (if res.2 then 1 else 0)))
    (db, 0)

/-- `resolve_alert` (views.py lines 331-341): fetch the alert and
unconditionally set `is_resolved = True` and `resolved_at = timezone.now()` —
there is no already-resolved check. -/
def resolve_alert (db : DB) (alert_id : Nat) (now : Nat) : DB :=
  { db with
      alerts := db.alerts.map (fun a =>
        if a.pk = alert_id then { a with is_resolved := true, resolved_at := some now }
        else a) }

/-- One data row of the CSV import. -/
structure CsvRow where
  code : String
  name : String
  unit_price : Money
  minimum_stock : Int
  maximum_stock : Int
  current_stock : Int
deriving Repr, DecidableEq

/-- One row of `csv_import` (views.py lines 264-296):
`Product.objects.update_or_create(code=..., defaults=product_data)` where the
defaults include `current_stock` — the stock is written directly, and neither
`StockMovement.save` nor alert evaluation is invoked. -/
def csv_import_row (db : DB) (row : CsvRow) : DB :=
  match db.products.find? (fun p => p.code = row.code) with
  | some p =>
    { db with
        products := db.products.map (fun q =>
          if q.pk = p.pk then
            { q with
                name := row.name
                unit_price := row.unit_price
                minimum_stock := row.minimum_stock
                maximum_stock := row.maximum_stock
                current_stock := row.current_stock }
          else q) }
  | none =>
    { db with
        products := db.products ++
          [{ pk := db.next_product_pk
             code := row.code
             name := row.name
             unit_price := row.unit_price
             current_stock := row.current_stock
             minimum_stock := row.minimum_stock
             maximum_stock := row.maximum_stock
             is_active := true }]
        next_product_pk := db.next_product_pk + 1 }

/-- The fields of a `StockMovement` that the admin change form may edit
(admin.py lines 70-99: `created_at`, `previous_stock`, `new_stock` and
`total_value` are `readonly_fields`). -/
structure MovementEdit where
  product : Nat
  movement_type : String
  quantity : Int
  unit_price : Option Money
  reference : String
  notes : String
deriving Repr, DecidableEq

/-- `StockMovementAdmin.save_model` on a CHANGE of an existing movement
(admin.py lines 106-109): the in-memory object keeps the stored read-only
fields and `created_by` and takes the edited fields from the form, then
`obj.save()` runs — which, the pk being set, overwrites the stored row. -/
def adminSaveMovement (db : DB) (stored : StockMovement) (e : MovementEdit) :
    Except String DB :=
  let obj : StockMovement :=
    { stored with
        product := e.product
        movement_type := e.movement_type
        quantity := e.quantity
        unit_price := e.unit_price
        reference := e.reference
        notes := e.notes }
  (StockMovement.save db obj).map (fun res => res.1)

/-- Number of unresolved alerts recorded for a given product. -/
def unresolvedCount (db : DB) (ppk : Nat) : Nat :=
  (db.alerts.filter (fun a => a.product = ppk && !a.is_resolved)).length

/-! Concrete sample data used to exercise the operations. -/

/-- A demo product: active, stock 10, minimum 5. -/
def demoProduct : Product :=
  { pk := 1, code := "P1", name := "Demo", unit_price := 100,
    current_stock := 10, minimum_stock := 5, maximum_stock := 1000, is_active := true }

/-- A demo database holding just `demoProduct`. -/
def demoDB : DB :=
  { products := [demoProduct], movements := [], alerts := [],
    next_product_pk := 2, next_movement_pk := 1, next_alert_pk := 1 }

/-- An OUT request for 3 units of the demo product. -/
def reqOut3 : MovementRequest :=
  { product := 1, movement_type := "OUT", quantity := 3, unit_price := none,
    reference := "", notes := "" }

/-- A fresh (unsaved) OUT movement of 3 units of the demo product. -/
def mvOut3 : StockMovement :=
  { pk := none, product := 1, movement_type := "OUT", quantity := 3,
    unit_price := none, total_value := none, reference := "", notes := "",
    created_by := 7, previous_stock := 0, new_stock := 0 }

/-- A fresh IN movement of 3 units at unit price 100. -/
def mvInPriced : StockMovement :=
  { mvOut3 with movement_type := "IN", unit_price := some 100 }

/-- A fresh IN movement of 5 units at unit price 0 (a supplied but falsy
Decimal). -/
def mvInZeroPrice : StockMovement :=
  { mvOut3 with movement_type := "IN", quantity := 5, unit_price := some 0 }

/-- A demo database whose product is below its minimum (stock 4, minimum 5). -/
def demoLowDB : DB :=
  { demoDB with products := [{ demoProduct with current_stock := 4 }] }

/-- An unresolved alert for the demo product, snapshot stock 4 / minimum 5. -/
def demoAlert : LowStockAlert :=
  { pk := 1, product := 1, current_stock := 4, minimum_stock := 5,
    is_resolved := false, created_at := 0, resolved_at := none }

/-- The demo database with one unresolved alert on record. -/
def demoAlertedDB : DB :=
  { demoDB with alerts := [demoAlert], next_alert_pk := 2 }

/-- The demo database with one alert already resolved at time 5. -/
def demoResolvedDB : DB :=
  { demoDB with
      alerts := [{ demoAlert with is_resolved := true, resolved_at := some 5 }],
      next_alert_pk := 2 }

/-- A stored ledger row: OUT of 5 units, snapshots 10 → 5. -/
def storedMv : StockMovement :=
  { pk := some 1, product := 1, movement_type := "OUT", quantity := 5,
    unit_price := none, total_value := none, reference := "", notes := "",
    created_by := 7, previous_stock := 10, new_stock := 5 }

/-- The demo database with `storedMv` already in the ledger. -/
def demoLedgerDB : DB :=
  { demoDB with movements := [storedMv], next_movement_pk := 2 }

/-- An admin edit of a movement that changes its quantity from 5 to 7. -/
def editQty7 : MovementEdit :=
  { product := 1, movement_type := "OUT", quantity := 7, unit_price := none,
    reference := "", notes := "" }

/-- A CSV row matching the demo product's code but carrying stock 0. -/
def rowStockZero : CsvRow :=
  { code := "P1", name := "Demo", unit_price := 100,
    minimum_stock := 5, maximum_stock := 1000, current_stock := 0 }

/-- The demo database with its single product deactivated. -/
def demoInactiveDB : DB :=
  { demoDB with products := [{ demoProduct with is_active := false }] }

/-- An IN request for 5 units of product 1 with no unit price. -/
def reqIn5 : MovementRequest :=
  { product := 1, movement_type := "IN", quantity := 5, unit_price := none,
    reference := "", notes := "" }

/-- An OUT request for 100 units (more than the demo stock of 10). -/
def reqOut100 : MovementRequest :=
  { reqOut3 with quantity := 100 }

/-- An IN request naming a product pk that does not exist. -/
def reqMissing : MovementRequest :=
  { reqIn5 with product := 99 }

/-- The ledger row produced by saving `mvOut3` against `demoDB`. -/
def mvOut3res : StockMovement :=
  { mvOut3 with pk := some 1, previous_stock := 10, new_stock := 7 }

/-- The database produced by saving `mvOut3` against `demoDB`. -/
def dbOut3res : DB :=
  { demoDB with
      products := [{ demoProduct with current_stock := 7 }],
      movements := [mvOut3res],
      next_movement_pk := 2 }

/-- The ledger row produced by saving `mvInPriced` against `demoDB`. -/
def mvInPricedRes : StockMovement :=
  { mvInPriced with
      pk := some 1, total_value := some 300, previous_stock := 10, new_stock := 13 }

/-- The database produced by saving `mvInPriced` against `demoDB`. -/
def dbInPricedRes : DB :=
  { demoDB with
      products := [{ demoProduct with current_stock := 13 }],
      movements := [mvInPricedRes],
      next_movement_pk := 2 }

/-- The database produced by the admin edit `editQty7` of `storedMv`. -/
def dbAfterEdit : DB :=
  { demoLedgerDB with movements := [{ storedMv with quantity := 7 }] }

/-- The demo alert after being resolved (again) at time 9. -/
def demoAlertAt9 : LowStockAlert :=
  { demoAlert with is_resolved := true, resolved_at := some 9 }

/-- A database whose product balance (3) has drifted away from the snapshot
stored in its unresolved alert (4). -/
def demoDriftDB : DB :=
  { demoDB with
      products := [{ demoProduct with current_stock := 3 }],
      alerts := [demoAlert],
      next_alert_pk := 2 }

/-! Proof-engineering helpers (not part of the source embedding). -/

/-- The alert row `alertGetOrCreate` inserts when none exists. -/
def freshAlert (p : Product) (apk t : Nat) : LowStockAlert :=
  { pk := apk, product := p.pk, current_stock := p.current_stock,
    minimum_stock := p.minimum_stock, is_resolved := false,
    created_at := t, resolved_at := none }

/-- Whether alert evaluation will insert a row: product found, at or below
minimum, and no unresolved alert on record. -/
def shouldCreateAlert (db : DB) (ppk : Nat) : Bool :=
  match findProduct db ppk with
  | none => false
  | some p =>
    p.is_low_stock && !(db.alerts.any (fun a => a.product = p.pk && !a.is_resolved))

/-! Helper lemmas about the embedded operations. -/

/-- A successful product lookup returns a member row with the requested pk. -/
theorem findProduct_eq_some {db : DB} {ppk : Nat} {p : Product}
    (h : findProduct db ppk = some p) : p ∈ db.products ∧ p.pk = ppk := by
  unfold findProduct at h
  refine ⟨List.mem_of_find?_eq_some h, ?_⟩
  simpa using List.find?_some h

/-- Every row of a saved product list is the saved row or an original row. -/
theorem mem_saveProduct {ps : List Product} {p q : Product}
    (h : q ∈ saveProduct ps p) : q = p ∨ q ∈ ps := by
  unfold saveProduct at h
  rcases List.mem_map.mp h with ⟨r, hr, hq⟩
  by_cases hc : r.pk = p.pk
  · left; rw [← hq]; simp [hc]
  · right; rw [← hq]; simp [hc]; exact hr

/-- Saving a product whose pk already occurs in the list places it in the
resulting list. -/
theorem mem_saveProduct_self {ps : List Product} {p0 p1 : Product}
    (h0 : p0 ∈ ps) (hpk : p0.pk = p1.pk) : p1 ∈ saveProduct ps p1 :=
  List.mem_map.mpr ⟨p0, h0, by simp [hpk]⟩

/-- Characterization of a successful `StockMovement.save` of a NEW row: the
product is looked up, stepped according to the movement type, saved back, and
the inserted row carries the before/after snapshots. -/
theorem save_new_ok {db : DB} {m : StockMovement} {db1 : DB} {m1 : StockMovement}
    (hpk : m.pk = none)
    (h : StockMovement.save db m = .ok (db1, m1)) :
    ∃ p p1,
      findProduct db m.product = some p ∧
      db1.products = saveProduct db.products p1 ∧
      db1.movements = db.movements ++ [m1] ∧
      db1.alerts = db.alerts ∧
      m1.product = m.product ∧
      m1.movement_type = m.movement_type ∧
      m1.quantity = m.quantity ∧
      m1.unit_price = m.unit_price ∧
      m1.total_value = computeTotal m.unit_price m.total_value m.quantity ∧
      m1.previous_stock = p.current_stock ∧
      m1.new_stock = p1.current_stock ∧
      p1.pk = p.pk ∧
      ((m.movement_type = "ADJ" ∧ p1.current_stock = m.quantity) ∨
       (m.movement_type = "IN" ∧ p1.current_stock = p.current_stock + m.quantity) ∨
       (m.movement_type = "OUT" ∧ m.quantity ≤ p.current_stock ∧
         p1.current_stock = p.current_stock - m.quantity)) := by
  unfold StockMovement.save at h
  rw [hpk] at h
  split at h
  case isFalse => exact absurd h (by simp)
  case isTrue hty =>
    simp only [] at h
    split at h
    next hfp => exact absurd h (by simp)
    next p hfp =>
      split at h
      next e hstep => exact absurd h (by simp)
      next p1 hstep =>
        simp only [Except.ok.injEq, Prod.mk.injEq] at h
        obtain ⟨hdb, hm⟩ := h
        subst hdb; subst hm
        refine ⟨p, p1, hfp, ?_⟩
        by_cases hadj : m.movement_type = "ADJ"
        · rw [if_pos hadj] at hstep
          simp only [Except.ok.injEq] at hstep
          subst hstep
          simp [hadj, saveProduct]
        · rw [if_neg hadj] at hstep
          unfold Product.update_stock at hstep
          rcases hty with hin | hout | h3
          · rw [if_pos hin] at hstep
            simp only [Except.ok.injEq] at hstep
            subst hstep
            simp [hin]
          · rw [if_neg (by simp [hout]), if_pos hout] at hstep
            split at hstep
            next hge =>
              simp only [Except.ok.injEq] at hstep
              subst hstep
              refine ⟨rfl, rfl, rfl, rfl, rfl, rfl, rfl, rfl, rfl, rfl, rfl, ?_⟩
              right; right
              exact ⟨hout, hge, rfl⟩
            next hlt => exact absurd hstep (by simp)
          · exact absurd h3 hadj

/-- Characterization of a form validation that succeeded: the product row
exists (whatever its active flag), the movement type is one of the three
choices, the quantity is at least 1, and an OUT does not exceed the stock. -/
theorem is_valid_ok {db : DB} {r : MovementRequest} {p : Product}
    (h : StockMovementForm.is_valid db r = .ok p) :
    findProduct db r.product = some p ∧
    (r.movement_type = "IN" ∨ r.movement_type = "OUT" ∨ r.movement_type = "ADJ") ∧
    1 ≤ r.quantity ∧
    (r.movement_type = "OUT" → r.quantity ≤ p.current_stock) := by
  unfold StockMovementForm.is_valid at h
  split at h
  next hfp => exact absurd h (by simp)
  next q hfp =>
    split at h
    next => exact absurd h (by simp)
    next hty =>
      split at h
      next => exact absurd h (by simp)
      next hq =>
        split at h
        next => exact absurd h (by simp)
        next hup =>
          split at h
          next => exact absurd h (by simp)
          next hout =>
            simp only [Except.ok.injEq] at h
            subst h
            refine ⟨hfp, not_not.mp hty, by omega, fun hO => ?_⟩
            by_contra hc
            exact hout ⟨hO, by omega⟩

/-- Full case analysis of one alert-evaluation step. -/
theorem evaluateAlertFor_spec (db : DB) (ppk t : Nat) :
    (shouldCreateAlert db ppk = false ∧ evaluateAlertFor db ppk t = db) ∨
    (∃ p, shouldCreateAlert db ppk = true ∧ findProduct db ppk = some p ∧
      p.is_low_stock = true ∧
      db.alerts.any (fun a => a.product = p.pk && !a.is_resolved) = false ∧
      evaluateAlertFor db ppk t =
        { db with
            alerts := db.alerts ++ [freshAlert p db.next_alert_pk t]
            next_alert_pk := db.next_alert_pk + 1 }) := by
  unfold evaluateAlertFor shouldCreateAlert alertGetOrCreate
  cases hfp : findProduct db ppk with
  | none => exact Or.inl ⟨rfl, rfl⟩
  | some p =>
    by_cases hlow : p.is_low_stock
    · by_cases hany : db.alerts.any (fun a => a.product = p.pk && !a.is_resolved)
      · exact Or.inl ⟨by simp [hlow, hany], by simp [hlow, hany]⟩
      · have hany2 : db.alerts.any (fun a => a.product = p.pk && !a.is_resolved) = false := by
          simpa using hany
        refine Or.inr ⟨p, ?_, rfl, hlow, hany2, ?_⟩
        · simp [hlow, hany2]
        · simp [hlow, hany2, freshAlert]
    · exact Or.inl ⟨by simp [hlow], by simp [hlow]⟩

/-- Alert evaluation never touches products or the ledger. -/
theorem evaluateAlertFor_frame (db : DB) (ppk t : Nat) :
    (evaluateAlertFor db ppk t).products = db.products ∧
    (evaluateAlertFor db ppk t).movements = db.movements := by
  rcases evaluateAlertFor_spec db ppk t with ⟨_, he⟩ | ⟨p, _, _, _, _, he⟩ <;>
    rw [he] <;> exact ⟨rfl, rfl⟩

/-- When an unresolved alert for the product is already on record, alert
evaluation changes nothing at all. -/
theorem evaluate_noop_of_unresolved (db : DB) (ppk t : Nat)
    (h : ∃ a ∈ db.alerts, a.product = ppk ∧ a.is_resolved = false) :
    evaluateAlertFor db ppk t = db := by
  rcases evaluateAlertFor_spec db ppk t with ⟨_, he⟩ | ⟨p, _, hfp, _, hany, _⟩
  · exact he
  · exfalso
    obtain ⟨a, ha, hprod, hres⟩ := h
    have hppk := (findProduct_eq_some hfp).2
    exact (List.any_eq_false.mp hany a ha) (by simp [hprod, hppk, hres])

/-- A successful `stock_movement_create` decomposes into a successful form
validation, a successful save of the form's movement, and the alert
evaluation. -/
theorem create_ok {db : DB} {r : MovementRequest} {user now : Nat} {db2 : DB}
    (h : stock_movement_create db r user now = (db2, none)) :
    ∃ p db1 m1,
      StockMovementForm.is_valid db r = .ok p ∧
      StockMovement.save db (formMovement r user) = .ok (db1, m1) ∧
      db2 = evaluateAlertFor db1 m1.product now := by
  unfold stock_movement_create at h
  split at h
  next e hv => exact absurd h (by simp)
  next p hv =>
    split at h
    next e hs => exact absurd h (by simp)
    next db1 m1 hs =>
      simp only [Prod.mk.injEq] at h
      exact ⟨p, db1, m1, hv, hs, h.1.symm⟩

/-- When the product is found and low yet no alert would be created, an
unresolved alert must already be on record. -/
theorem shouldCreateAlert_false {db : DB} {ppk : Nat} {p : Product}
    (hfp : findProduct db ppk = some p) (hlow : p.is_low_stock = true)
    (hsc : shouldCreateAlert db ppk = false) :
    db.alerts.any (fun a => a.product = p.pk && !a.is_resolved) = true := by
  unfold shouldCreateAlert at hsc
  rw [hfp] at hsc
  simpa [hlow] using hsc

/-! Claim theorems. -/

/-- Claim C1: for every item and every committed movement (INBOUND, OUTBOUND
or ADJUST, for any quantity the movement path accepts), every item balance is
still ≥ 0 after the movement commits, the balances having been ≥ 0 before. -/
theorem C1_balance_nonneg_after_commit (db db2 : DB) (r : MovementRequest)
    (user now : Nat)
    (hinv : ∀ p ∈ db.products, 0 ≤ p.current_stock)
    (h : stock_movement_create db r user now = (db2, none)) :
    ∀ q ∈ db2.products, 0 ≤ q.current_stock := by
  obtain ⟨p, db1, m1, hv, hs, hdb2⟩ := create_ok h
  obtain ⟨hfp, hty, hq1, hout⟩ := is_valid_ok hv
  obtain ⟨p0, p1, hfp2, hprod, _, _, _, _, _, _, _, _, _, _, hcases⟩ :=
    save_new_ok (show (formMovement r user).pk = none from rfl) hs
  intro q hq
  rw [hdb2] at hq
  rw [(evaluateAlertFor_frame db1 m1.product now).1, hprod] at hq
  rcases mem_saveProduct hq with hqe | hmem
  · subst hqe
    have hfp0 : findProduct db r.product = some p0 := hfp2
    have hnn0 : 0 ≤ p0.current_stock := hinv p0 (findProduct_eq_some hfp0).1
    rcases hcases with ⟨_, hst⟩ | ⟨_, hst⟩ | ⟨_, hge, hst⟩
    · simp only [formMovement] at hst; omega
    · simp only [formMovement] at hst; omega
    · simp only [formMovement] at hst hge; omega
  · exact hinv q hmem

/-- Claim C2: an OUTBOUND request whose quantity exceeds the item's current
balance fails with the insufficient-balance error, the state is returned
unchanged (no balance mutation, no ledger row). -/
theorem C2_insufficient_outbound (db : DB) (r : MovementRequest) (user now : Nat)
    (p : Product)
    (hp : findProduct db r.product = some p)
    (hnn : 0 ≤ p.current_stock)
    (hty : r.movement_type = "OUT")
    (hq : p.current_stock < r.quantity)
    (hup : r.unit_price = none ∨ ∃ v, r.unit_price = some v ∧ 0 ≤ v) :
    stock_movement_create db r user now = (db, some "Stock insuficiente") := by
  have hpr : (match r.unit_price with | some v => decide (v < 0) | none => false) = false := by
    rcases hup with h0 | ⟨v, hv, hvnn⟩
    · simp [h0]
    · simp only [hv]
      simpa using hvnn
  have hv : StockMovementForm.is_valid db r = .error "Stock insuficiente" := by
    unfold StockMovementForm.is_valid
    simp only [hp]
    rw [if_neg (not_not_intro (Or.inr (Or.inl hty)))]
    rw [if_neg (by omega)]
    rw [if_neg (by simp [hpr])]
    rw [if_pos ⟨hty, hq⟩]
  unfold stock_movement_create
  rw [hv]

/-- Claim C3: a committed ledger row's `new_stock` equals `previous_stock`
plus quantity for IN, minus quantity for OUT, and equals the quantity for
ADJ; and the product's balance immediately after the commit equals
`new_stock`. -/
theorem C3_snapshot_consistency (db db1 : DB) (m m1 : StockMovement)
    (hpk : m.pk = none)
    (h : StockMovement.save db m = .ok (db1, m1)) :
    (m1.movement_type = "IN" → m1.new_stock = m1.previous_stock + m1.quantity) ∧
    (m1.movement_type = "OUT" → m1.new_stock = m1.previous_stock - m1.quantity) ∧
    (m1.movement_type = "ADJ" → m1.new_stock = m1.quantity) ∧
    ∃ q ∈ db1.products, q.pk = m1.product ∧ q.current_stock = m1.new_stock := by
  obtain ⟨p, p1, hfp, hprod, _, _, hmprod, hmty, hmq, _, _, hmprev, hmnew, hpk1, hcases⟩ :=
    save_new_ok hpk h
  obtain ⟨hpmem, hppk⟩ := findProduct_eq_some hfp
  refine ⟨?_, ?_, ?_, ?_⟩
  · intro hI
    rw [hmty] at hI
    rcases hcases with ⟨hA, _⟩ | ⟨_, hst⟩ | ⟨hO, _, _⟩
    · rw [hI] at hA; exact absurd hA (by simp)
    · omega
    · rw [hI] at hO; exact absurd hO (by simp)
  · intro hO
    rw [hmty] at hO
    rcases hcases with ⟨hA, _⟩ | ⟨hI, _⟩ | ⟨_, hge, hst⟩
    · rw [hO] at hA; exact absurd hA (by simp)
    · rw [hO] at hI; exact absurd hI (by simp)
    · omega
  · intro hA
    rw [hmty] at hA
    rcases hcases with ⟨_, hst⟩ | ⟨hI, _⟩ | ⟨hO, _, _⟩
    · omega
    · rw [hA] at hI; exact absurd hI (by simp)
    · rw [hA] at hO; exact absurd hO (by simp)
  · refine ⟨p1, ?_, ?_, hmnew.symm⟩
    · rw [hprod]
      exact mem_saveProduct_self hpmem (by rw [hppk, hpk1, hppk])
    · rw [hpk1, hppk, hmprod]

/-- Claim C9 (amended): a movement request for an item pk that does not exist
is rejected by form validation (the `ModelChoiceField` lookup fails) and the
state is returned unchanged; the active flag, however, is never consulted. -/
theorem C9_missing_item_rejected (db : DB) (r : MovementRequest) (user now : Nat)
    (h : findProduct db r.product = none) :
    stock_movement_create db r user now = (db, some "Producto no válido") := by
  have hv : StockMovementForm.is_valid db r = .error "Producto no válido" := by
    unfold StockMovementForm.is_valid
    rw [h]
  unfold stock_movement_create
  rw [hv]

/-- Claim C4: alert evaluation preserves the at-most-one-unresolved-alert
invariant, is idempotent, and evaluating an item at or below its minimum with
no unresolved alert yields exactly one unresolved alert. -/
theorem C4_alert_dedup (db : DB) (ppk t1 t2 : Nat)
    (hinv : ∀ k, unresolvedCount db k ≤ 1) :
    (∀ k, unresolvedCount (evaluateAlertFor db ppk t1) k ≤ 1) ∧
    evaluateAlertFor (evaluateAlertFor db ppk t1) ppk t2 = evaluateAlertFor db ppk t1 ∧
    (∀ p, findProduct db ppk = some p → p.is_low_stock = true →
      unresolvedCount db ppk = 0 → unresolvedCount (evaluateAlertFor db ppk t1) ppk = 1) := by
  rcases evaluateAlertFor_spec db ppk t1 with ⟨hsc, he⟩ | ⟨p, hsc, hfp, hlow, hany, he⟩
  · rw [he]
    refine ⟨hinv, ?_, ?_⟩
    · rcases evaluateAlertFor_spec db ppk t2 with ⟨_, he2⟩ | ⟨q, hsc2, _, _, _, _⟩
      · exact he2
      · rw [hsc2] at hsc; exact absurd hsc (by simp)
    · intro p hfp hlow h0
      exfalso
      obtain ⟨a, ha, hpred⟩ := List.any_eq_true.mp (shouldCreateAlert_false hfp hlow hsc)
      have hppk := (findProduct_eq_some hfp).2
      unfold unresolvedCount at h0
      rw [List.length_eq_zero] at h0
      rw [hppk] at hpred
      exact (List.filter_eq_nil_iff.mp h0) a ha hpred
  · have hppk := (findProduct_eq_some hfp).2
    have hnone : ∀ a ∈ db.alerts, ¬((a.product = ppk && !a.is_resolved) = true) := by
      intro a ha
      rw [← hppk]
      exact List.any_eq_false.mp hany a ha
    have hfilter : db.alerts.filter (fun a => a.product = ppk && !a.is_resolved) = [] :=
      List.filter_eq_nil_iff.mpr hnone
    rw [he]
    refine ⟨?_, ?_, ?_⟩
    · intro k
      unfold unresolvedCount
      simp only [List.filter_append, List.length_append]
      by_cases hk : k = ppk
      · subst hk
        rw [hfilter]
        simp [freshAlert, hppk]
      · have h1 := hinv k
        unfold unresolvedCount at h1
        have h2 : (List.filter (fun a => a.product = k && !a.is_resolved)
            [freshAlert p db.next_alert_pk t1]).length = 0 := by
          simp [freshAlert, hppk, Ne.symm hk]
        omega
    · apply evaluate_noop_of_unresolved
      exact ⟨freshAlert p db.next_alert_pk t1, by simp,
        by simpa [freshAlert] using hppk, rfl⟩
    · intro q hfpq hlowq h0
      unfold unresolvedCount
      simp only [List.filter_append, List.length_append]
      rw [hfilter]
      simp [freshAlert, hppk]

/-- Claim C5 (amended): `resolve` always marks the alert resolved and ALWAYS
stamps `resolved_at` with the time of the present call — a second resolve of
the same alert therefore overwrites the earlier timestamp. -/
theorem C5_resolve_overwrites_timestamp (db : DB) (aid tnow : Nat) :
    ∀ a ∈ (resolve_alert db aid tnow).alerts, a.pk = aid →
      a.is_resolved = true ∧ a.resolved_at = some tnow := by
  intro a ha hpk
  unfold resolve_alert at ha
  rcases List.mem_map.mp ha with ⟨b, hb, hab⟩
  by_cases hc : b.pk = aid
  · rw [← hab]
    simp [hc]
  · rw [← hab] at hpk
    rw [if_neg hc] at hpk
    exact absurd hpk hc

/-- Claim C6 (amended): re-saving an existing ledger row through the admin
change path leaves products, alerts and the ledger's length unchanged and
never rewrites the row's `previous_stock`/`new_stock` snapshots — though the
row itself (its editable fields) IS overwritten, so the ledger is not
immutable. -/
theorem C6_resave_keeps_snapshots (db db1 : DB) (stored : StockMovement)
    (e : MovementEdit) (k : Nat)
    (hpk : stored.pk = some k)
    (h : adminSaveMovement db stored e = .ok db1) :
    db1.products = db.products ∧ db1.alerts = db.alerts ∧
    db1.movements.length = db.movements.length ∧
    ∀ m ∈ db1.movements, m.pk = some k →
      m.previous_stock = stored.previous_stock ∧ m.new_stock = stored.new_stock := by
  unfold adminSaveMovement StockMovement.save at h
  simp only [] at h
  split at h
  case isFalse => exact absurd h (by simp [Except.map])
  case isTrue hty =>
    rw [hpk] at h
    simp only [Except.map, Except.ok.injEq] at h
    subst h
    refine ⟨rfl, rfl, by simp, ?_⟩
    intro m hm hmk
    rcases List.mem_map.mp hm with ⟨r0, hr0, hme⟩
    by_cases hc : r0.pk = some k
    · rw [← hme]
      simp [hc]
    · exfalso
      rw [← hme] at hmk
      rw [if_neg hc] at hmk
      exact hc hmk

/-- Claim C8 (amended): for a newly committed movement whose `total_value`
was unset, `total_value` equals unit price × quantity whenever a NONZERO unit
price is supplied; a missing unit price — and likewise a supplied price of
zero, which Python treats as falsy — leaves `total_value` undefined. -/
theorem C8_total_value_rule (db db1 : DB) (m m1 : StockMovement)
    (hpk : m.pk = none) (htv : m.total_value = none)
    (h : StockMovement.save db m = .ok (db1, m1)) :
    (∀ v, m.unit_price = some v → v ≠ 0 → m1.total_value = some (v * m.quantity)) ∧
    (m.unit_price = none → m1.total_value = none) ∧
    (m.unit_price = some 0 → m1.total_value = none) := by
  obtain ⟨p, p1, _, _, _, _, _, _, _, _, htv1, _, _, _, _⟩ := save_new_ok hpk h
  rw [htv] at htv1
  refine ⟨?_, ?_, ?_⟩
  · intro v hv hv0
    rw [htv1, hv]
    simp [computeTotal, truthy, hv0]
  · intro hv
    rw [htv1, hv]
    simp [computeTotal]
  · intro hv
    rw [htv1, hv]
    simp [computeTotal, truthy]

/-- Claim C10: evaluating an item that already has an unresolved alert
changes nothing — in particular the existing alert's stored balance and
minimum snapshots keep the values captured at alert creation. -/
theorem C10_reevaluation_keeps_snapshots (db : DB) (ppk t : Nat)
    (h : ∃ a ∈ db.alerts, a.product = ppk ∧ a.is_resolved = false) :
    evaluateAlertFor db ppk t = db :=
  evaluate_noop_of_unresolved db ppk t h

/-! Witnesses and counterexamples on concrete data. -/

/-- Witness for C1: an OUT of 3 from stock 10 commits and leaves all
balances non-negative. -/
theorem C1_witness :
    (∀ p ∈ demoDB.products, 0 ≤ p.current_stock) ∧
    (∀ q ∈ dbOut3res.products, 0 ≤ q.current_stock) :=
  ⟨by decide, C1_balance_nonneg_after_commit demoDB dbOut3res reqOut3 7 0
    (by decide) (by decide)⟩

/-- Witness for C2: an OUT of 100 against stock 10 fails and the state is
returned unchanged. -/
theorem C2_witness :
    stock_movement_create demoDB reqOut100 7 0 = (demoDB, some "Stock insuficiente") :=
  C2_insufficient_outbound demoDB reqOut100 7 0 demoProduct (by decide) (by decide)
    (by decide) (by decide) (Or.inl rfl)

/-- Witness for C3: the committed OUT-3 row satisfies the snapshot algebra
and the stored balance matches its `new_stock`. -/
theorem C3_witness :
    (mvOut3res.movement_type = "IN" →
      mvOut3res.new_stock = mvOut3res.previous_stock + mvOut3res.quantity) ∧
    (mvOut3res.movement_type = "OUT" →
      mvOut3res.new_stock = mvOut3res.previous_stock - mvOut3res.quantity) ∧
    (mvOut3res.movement_type = "ADJ" → mvOut3res.new_stock = mvOut3res.quantity) ∧
    ∃ q ∈ dbOut3res.products, q.pk = mvOut3res.product ∧
      q.current_stock = mvOut3res.new_stock :=
  C3_snapshot_consistency demoDB dbOut3res mvOut3 mvOut3res rfl rfl

/-- Witness for C4: evaluating the low demo item (stock 4 ≤ minimum 5)
creates exactly one unresolved alert and a second evaluation is a no-op. -/
theorem C4_witness :
    (∀ k, unresolvedCount (evaluateAlertFor demoLowDB 1 3) k ≤ 1) ∧
    evaluateAlertFor (evaluateAlertFor demoLowDB 1 3) 1 4 = evaluateAlertFor demoLowDB 1 3 ∧
    (∀ p, findProduct demoLowDB 1 = some p → p.is_low_stock = true →
      unresolvedCount demoLowDB 1 = 0 → unresolvedCount (evaluateAlertFor demoLowDB 1 3) 1 = 1) :=
  C4_alert_dedup demoLowDB 1 3 4 (fun k => by simp [unresolvedCount, demoLowDB, demoDB])

/-- Counterexample for C5 as stated: resolving the alert already resolved at
time 5 again at time 9 overwrites its resolved timestamp. -/
theorem C5_counterexample :
    demoResolvedDB.alerts.map (fun a => a.resolved_at) = [some 5] ∧
    (resolve_alert demoResolvedDB 1 9).alerts.map (fun a => a.resolved_at) = [some 9] :=
  ⟨rfl, rfl⟩

/-- Witness for C5 (amended): after resolving at time 9, the alert carries
resolved-at 9. -/
theorem C5_witness :
    demoAlertAt9.is_resolved = true ∧ demoAlertAt9.resolved_at = some 9 :=
  C5_resolve_overwrites_timestamp demoResolvedDB 1 9 demoAlertAt9 (by decide) (by decide)

/-- Counterexample for C6 as stated: the admin change path overwrites an
existing ledger row — its quantity goes from 5 to 7. -/
theorem C6_counterexample :
    demoLedgerDB.movements.map (fun m => m.quantity) = [5] ∧
    (adminSaveMovement demoLedgerDB storedMv editQty7).map
      (fun d => d.movements.map (fun m => m.quantity)) = Except.ok [7] :=
  ⟨rfl, rfl⟩

/-- Witness for C6 (amended): the admin re-save keeps products, alerts,
ledger length and the row's snapshots unchanged. -/
theorem C6_witness :
    dbAfterEdit.products = demoLedgerDB.products ∧
    dbAfterEdit.alerts = demoLedgerDB.alerts ∧
    dbAfterEdit.movements.length = demoLedgerDB.movements.length ∧
    ∀ m ∈ dbAfterEdit.movements, m.pk = some 1 →
      m.previous_stock = storedMv.previous_stock ∧ m.new_stock = storedMv.new_stock :=
  C6_resave_keeps_snapshots demoLedgerDB dbAfterEdit storedMv editQty7 1 rfl rfl

/-- Claim C7: importing a CSV row for the existing product writes its balance
directly (10 becomes 0) while the ledger and alerts are untouched — the
change bypasses the movement path, so no ledger row documents it. -/
theorem C7_csv_import_bypasses_ledger :
    demoLedgerDB.products.map (fun p => p.current_stock) = [10] ∧
    (csv_import_row demoLedgerDB rowStockZero).products.map (fun p => p.current_stock) = [0] ∧
    (csv_import_row demoLedgerDB rowStockZero).movements = demoLedgerDB.movements ∧
    (csv_import_row demoLedgerDB rowStockZero).alerts = demoLedgerDB.alerts :=
  ⟨rfl, rfl, rfl, rfl⟩

/-- Counterexample for C8 as stated: a movement committed with the supplied
unit price 0 ends with `total_value` undefined, not `0 × quantity`. -/
theorem C8_counterexample :
    (StockMovement.save demoDB mvInZeroPrice).map (fun r => r.2.unit_price) =
      Except.ok (some 0) ∧
    (StockMovement.save demoDB mvInZeroPrice).map
      (fun r => decide (r.2.total_value = r.2.unit_price.map (fun v => v * r.2.quantity))) =
      Except.ok false :=
  ⟨rfl, rfl⟩

/-- Witness for C8 (amended): the IN of 3 units at unit price 100 commits
with `total_value` 300. -/
theorem C8_witness : mvInPricedRes.total_value = some 300 :=
  (C8_total_value_rule demoDB dbInPricedRes mvInPriced mvInPricedRes rfl rfl rfl).1
    100 rfl (by decide)

/-- Counterexample for C9 as stated: a movement on an INACTIVE product is
accepted and applied (stock 10 becomes 15), not rejected. -/
theorem C9_counterexample :
    demoInactiveDB.products.map (fun p => (p.is_active, p.current_stock)) = [(false, 10)] ∧
    (stock_movement_create demoInactiveDB reqIn5 7 0).2 = none ∧
    (stock_movement_create demoInactiveDB reqIn5 7 0).1.products.map
      (fun p => p.current_stock) = [15] :=
  ⟨rfl, rfl, rfl⟩

/-- Witness for C9 (amended): a movement naming a nonexistent product pk is
rejected with the state unchanged. -/
theorem C9_witness :
    stock_movement_create demoDB reqMissing 7 0 = (demoDB, some "Producto no válido") :=
  C9_missing_item_rejected demoDB reqMissing 7 0 rfl

/-- Witness for C10: re-evaluating the item whose balance (3) has drifted
from the alert snapshot (4) changes nothing. -/
theorem C10_witness : evaluateAlertFor demoDriftDB 1 6 = demoDriftDB :=
  C10_reevaluation_keeps_snapshots demoDriftDB 1 6 ⟨demoAlert, by decide, rfl, rfl⟩

end Inventory
